import Mathlib

/-!
Shallow embedding of `src/src/RcppExports.cpp` from Simontuk/Rtsne.multicore.

The file under verification is the generated Rcpp binding
`Rtsne_multicore_Rtsne_cpp`: it converts six SEXP arguments to native types
(`NumericMatrix`, `int`, `double`, `double`, `int`, `int`), constructs an
`RNGScope`, calls the native routine `Rtsne_cpp` once, wraps its result and
returns it; the `BEGIN_RCPP`/`END_RCPP` bracket turns any C++ exception into a
host error condition.

Modelling choices:
* An R value (`SEXP`) is an inductive type covering the shapes the binding can
  meet: a real matrix (list of rows of rationals — the binding performs no
  arithmetic on doubles, so exact rationals model the stored values
  faithfully), real and integer scalars, strings, generic lists, and NULL.
* SEXP arguments are pointers, so the wrapper receives heap indices into a
  small caller-visible global environment `GlobalEnv` (a heap of values plus
  the host RNG state `.Random.seed`).  The wrapper returns the result, the
  final environment, and the list of calls made to the native routine, so
  that call counting and argument pass-through are statable.
* `RNGScope` is modelled by its semantics: the RNG state is fetched from the
  environment before the conversions, handed to the native routine, and the
  routine's final RNG state is written back when the scope closes (also on
  the exception paths, since the destructor runs during unwinding).
* C++ exceptions are the `Except` channel: `.error (.argumentTypeError m)`
  is a conversion failure raised by the shim, `.error (.nativeError m)` a
  failure propagated from the native routine.
* The native routine is a parameter of the wrapper (the spec's "pluggable
  capability"), so the marshaling claims hold for every native routine; the
  claims about the full call use a spec-modelled `Rtsne_cpp`, whose
  definition is not part of the supplied source.
-/

/-- An R value as seen across the foreign-call boundary. -/
inductive SEXP where
  | realMatrix (rows : List (List Rat))
  | realScalar (x : Rat)
  | intScalar (n : Int)
  | strScalar (s : String)
  | rList (fields : List (String × SEXP))
  | nilValue

/-- A host error condition as produced by the `BEGIN_RCPP`/`END_RCPP` bracket:
either a type-conversion failure raised by the shim itself, or a failure
propagated from the native routine. -/
inductive RcppError where
  | argumentTypeError (msg : String)
  | nativeError (msg : String)
deriving Repr, DecidableEq

/-- The caller-visible global environment: the host RNG state
(`.Random.seed`) and the heap of R objects, addressed by position. -/
structure GlobalEnv where
  randomSeed : Nat
  heap : List SEXP

/-- Dereference a SEXP pointer (a heap index) in the global environment. -/
def heapAt (env : GlobalEnv) (i : Nat) : SEXP :=
  env.heap.getD i SEXP.nilValue

/-- Truncation toward zero, the `static_cast<int>(double)` conversion C++
applies when Rcpp coerces a real scalar to `int` (`Int.tdiv` is the
truncating division, so this is the integer part of `num / den`). -/
def truncToInt (q : Rat) : Int :=
  q.num.tdiv q.den

/-- `Rcpp::traits::input_parameter< NumericMatrix >`: a real matrix converts
(as a zero-copy proxy of the same data), anything else throws
`not compatible with requested type`. -/
def asNumericMatrix : SEXP → Except String (List (List Rat))
  | SEXP.realMatrix rows => Except.ok rows
  | _ => Except.error "not compatible with requested type (NumericMatrix)"

/-- `Rcpp::traits::input_parameter< int >`: an integer scalar converts as is,
a real scalar is truncated toward zero, anything else throws. -/
def asInt : SEXP → Except String Int
  | SEXP.intScalar n => Except.ok n
  | SEXP.realScalar q => Except.ok (truncToInt q)
  | _ => Except.error "not compatible with requested type (int)"

/-- `Rcpp::traits::input_parameter< double >`: a real scalar converts as is,
an integer scalar is widened, anything else throws. -/
def asDouble : SEXP → Except String Rat
  | SEXP.realScalar q => Except.ok q
  | SEXP.intScalar n => Except.ok (n : Rat)
  | _ => Except.error "not compatible with requested type (double)"

/-- `Rcpp::wrap` on the `Rcpp::List` returned by the native routine: the list
is already a SEXP and is returned unchanged. -/
def wrap (x : SEXP) : SEXP := x

/-- One invocation of the native routine, with the converted arguments it
received. -/
structure TsneCall where
  X : List (List Rat)
  no_dims_in : Int
  perplexity_in : Rat
  theta_in : Rat
  num_threads : Int
  max_iter : Int
deriving Repr, DecidableEq

/-- The native routine as a capability: it receives the converted arguments
and the synchronized RNG state, and produces either an `Rcpp::List` result or
a thrown error message, together with the final RNG state. -/
def NativeRoutine : Type :=
  TsneCall → Nat → Except String SEXP × Nat

/-- The generated binding `Rtsne_multicore_Rtsne_cpp` from
`src/src/RcppExports.cpp`, parametrized by the native routine it delegates
to.  The six SEXP arguments are heap indices.  It returns the outcome of the
`BEGIN_RCPP`/`END_RCPP` bracket, the final global environment, and the list
of native invocations made during the call. -/
def Rtsne_multicore_Rtsne_cpp (native : NativeRoutine)
    (XSEXP no_dims_inSEXP perplexity_inSEXP theta_inSEXP num_threadsSEXP
      max_iterSEXP : Nat) (env : GlobalEnv) :
    Except RcppError SEXP × GlobalEnv × List TsneCall :=
  -- Rcpp::RNGScope rcpp_rngScope_gen: GetRNGstate fetches the host RNG state.
  let rngBuf := env.randomSeed
  -- The six input_parameter conversions, in source order; a failure throws,
  -- the RNGScope destructor writes the untouched buffer back (no net change)
  -- and END_RCPP re-signals the exception as a host error condition.
  match asNumericMatrix (heapAt env XSEXP) with
  | Except.error m => (Except.error (RcppError.argumentTypeError m), env, [])
  | Except.ok X =>
    match asInt (heapAt env no_dims_inSEXP) with
    | Except.error m => (Except.error (RcppError.argumentTypeError m), env, [])
    | Except.ok no_dims_in =>
      match asDouble (heapAt env perplexity_inSEXP) with
      | Except.error m =>
          (Except.error (RcppError.argumentTypeError m), env, [])
      | Except.ok perplexity_in =>
        match asDouble (heapAt env theta_inSEXP) with
        | Except.error m =>
            (Except.error (RcppError.argumentTypeError m), env, [])
        | Except.ok theta_in =>
          match asInt (heapAt env num_threadsSEXP) with
          | Except.error m =>
              (Except.error (RcppError.argumentTypeError m), env, [])
          | Except.ok num_threads =>
            match asInt (heapAt env max_iterSEXP) with
            | Except.error m =>
                (Except.error (RcppError.argumentTypeError m), env, [])
            | Except.ok max_iter =>
              -- rcpp_result_gen = Rcpp::wrap(Rtsne_cpp(X, no_dims_in,
              -- perplexity_in, theta_in, num_threads, max_iter));
              let call : TsneCall :=
                ⟨X, no_dims_in, perplexity_in, theta_in, num_threads,
                  max_iter⟩
              match native call rngBuf with
              | (Except.error m, rngOut) =>
                  -- The native exception unwinds through the RNGScope
                  -- destructor (PutRNGstate) and END_RCPP re-signals it.
                  (Except.error (RcppError.nativeError m),
                    { env with randomSeed := rngOut }, [call])
              | (Except.ok r, rngOut) =>
                  (Except.ok (wrap r),
                    { env with randomSeed := rngOut }, [call])

/-- Modelled from the spec: the native routine `Rtsne_cpp` is only declared in
`src/src/RcppExports.cpp`; its definition is not part of the supplied source.
Per the spec it fails loudly on the boundary conditions the spec makes
testable — an empty (zero-row) matrix, and a perplexity at or above
rows − 1 — and otherwise returns a result bundle whose embedding matrix has
one row per observation and `no_dims_in` columns, plus opaque diagnostics.
The numeric content of the embedding and any RNG consumption are not
determined by the spec; the entries are modelled as zeros and the RNG state
is left unchanged.  A matrix with rows but zero columns is deliberately not
rejected: the spec's shape property asserts a successful embedding for every
matrix with at least 2 rows and perplexity below rows − 1, with no column
condition, which forces success on a zero-column matrix and so contradicts
reading the empty-matrix rejection as covering that case (see the corrected
claim C6 below). -/
def Rtsne_cpp (c : TsneCall) (rng : Nat) : Except String SEXP × Nat :=
  let n := c.X.length
  if n = 0 then
    (Except.error "the supplied matrix is empty", rng)
  else if (n : Rat) - 1 ≤ c.perplexity_in then
    (Except.error "perplexity too large for the number of data points", rng)
  else
    let emb := List.replicate n (List.replicate c.no_dims_in.toNat (0 : Rat))
    (Except.ok (SEXP.rList
        [("Y", SEXP.realMatrix emb), ("itercosts", SEXP.realScalar 0)]),
      rng)

/-! ### Concrete fixtures used by the witnesses -/

/-- A concrete 3 × 2 data matrix. -/
def demoX : List (List Rat) := [[1, 2], [3, 4], [5, 6]]

/-- A concrete global environment whose heap holds, at indices 0..5, six
well-typed arguments for a call. -/
def demoEnv : GlobalEnv :=
  { randomSeed := 17,
    heap := [SEXP.realMatrix demoX, SEXP.intScalar 2, SEXP.realScalar 1,
      SEXP.realScalar (1/2), SEXP.intScalar 4, SEXP.intScalar 1000] }

/-- A stub native routine that succeeds with an empty bundle and consumes one
random draw, advancing the RNG state. -/
def stubOk : NativeRoutine :=
  fun _ rng => (Except.ok (SEXP.rList []), rng + 1)

/-- A stub native routine that succeeds and leaves the RNG state untouched. -/
def stubPure : NativeRoutine :=
  fun c rng =>
    (Except.ok (SEXP.rList [("dims", SEXP.intScalar c.no_dims_in)]), rng)

/-- A stub native routine that always throws. -/
def stubThrow : NativeRoutine :=
  fun _ rng => (Except.error "thread creation failed", rng)

/-! ### Master outcome lemma

Complete case analysis of one call to the binding, shared by several of the
claim theorems below. -/

/-- Every call to the binding ends in exactly one of two ways: a
type-conversion failure raised before any native invocation and leaving the
environment unchanged, or a single native invocation on the six converted
arguments whose result (success or thrown error) determines the returned
value, with the native routine's final RNG state written back. -/
theorem wrapperOutcome (native : NativeRoutine) (i1 i2 i3 i4 i5 i6 : Nat)
    (env : GlobalEnv) :
    (∃ m, (Rtsne_multicore_Rtsne_cpp native i1 i2 i3 i4 i5 i6 env).1 =
        Except.error (RcppError.argumentTypeError m) ∧
      (Rtsne_multicore_Rtsne_cpp native i1 i2 i3 i4 i5 i6 env).2.2 = [] ∧
      (Rtsne_multicore_Rtsne_cpp native i1 i2 i3 i4 i5 i6 env).2.1 = env) ∨
    (∃ c rngOut,
      (Rtsne_multicore_Rtsne_cpp native i1 i2 i3 i4 i5 i6 env).2.2 = [c] ∧
      asNumericMatrix (heapAt env i1) = Except.ok c.X ∧
      asInt (heapAt env i2) = Except.ok c.no_dims_in ∧
      asDouble (heapAt env i3) = Except.ok c.perplexity_in ∧
      asDouble (heapAt env i4) = Except.ok c.theta_in ∧
      asInt (heapAt env i5) = Except.ok c.num_threads ∧
      asInt (heapAt env i6) = Except.ok c.max_iter ∧
      (Rtsne_multicore_Rtsne_cpp native i1 i2 i3 i4 i5 i6 env).2.1 =
        { env with randomSeed := rngOut } ∧
      ((∃ r, native c env.randomSeed = (Except.ok r, rngOut) ∧
          (Rtsne_multicore_Rtsne_cpp native i1 i2 i3 i4 i5 i6 env).1 =
            Except.ok (wrap r)) ∨
        (∃ m, native c env.randomSeed = (Except.error m, rngOut) ∧
          (Rtsne_multicore_Rtsne_cpp native i1 i2 i3 i4 i5 i6 env).1 =
            Except.error (RcppError.nativeError m)))) := by
  cases h1 : asNumericMatrix (heapAt env i1) with
  | error m =>
      refine Or.inl ⟨m, ?_, ?_, ?_⟩ <;>
        simp [Rtsne_multicore_Rtsne_cpp, h1]
  | ok X =>
  cases h2 : asInt (heapAt env i2) with
  | error m =>
      refine Or.inl ⟨m, ?_, ?_, ?_⟩ <;>
        simp [Rtsne_multicore_Rtsne_cpp, h1, h2]
  | ok nd =>
  cases h3 : asDouble (heapAt env i3) with
  | error m =>
      refine Or.inl ⟨m, ?_, ?_, ?_⟩ <;>
        simp [Rtsne_multicore_Rtsne_cpp, h1, h2, h3]
  | ok pp =>
  cases h4 : asDouble (heapAt env i4) with
  | error m =>
      refine Or.inl ⟨m, ?_, ?_, ?_⟩ <;>
        simp [Rtsne_multicore_Rtsne_cpp, h1, h2, h3, h4]
  | ok th =>
  cases h5 : asInt (heapAt env i5) with
  | error m =>
      refine Or.inl ⟨m, ?_, ?_, ?_⟩ <;>
        simp [Rtsne_multicore_Rtsne_cpp, h1, h2, h3, h4, h5]
  | ok nt =>
  cases h6 : asInt (heapAt env i6) with
  | error m =>
      refine Or.inl ⟨m, ?_, ?_, ?_⟩ <;>
        simp [Rtsne_multicore_Rtsne_cpp, h1, h2, h3, h4, h5, h6]
  | ok mi =>
  cases hc : native ⟨X, nd, pp, th, nt, mi⟩ env.randomSeed with
  | mk res rngOut =>
    cases res with
    | error m =>
        refine Or.inr ⟨⟨X, nd, pp, th, nt, mi⟩, rngOut, ?_, rfl, rfl, rfl,
          rfl, rfl, rfl, ?_, Or.inr ⟨m, hc, ?_⟩⟩ <;>
          simp [Rtsne_multicore_Rtsne_cpp, h1, h2, h3, h4, h5, h6, hc]
    | ok r =>
        refine Or.inr ⟨⟨X, nd, pp, th, nt, mi⟩, rngOut, ?_, rfl, rfl, rfl,
          rfl, rfl, rfl, ?_, Or.inl ⟨r, hc, ?_⟩⟩ <;>
          simp [Rtsne_multicore_Rtsne_cpp, h1, h2, h3, h4, h5, h6, hc]

/-! ### Claim theorems -/

/-- Claim C1: for every call with six convertible arguments, the native
routine is invoked exactly once, on the six converted arguments, and the
wrapper's returned value is exactly the wrap of that single invocation's
result. -/
theorem native_called_exactly_once_and_wrapped (native : NativeRoutine)
    (i1 i2 i3 i4 i5 i6 : Nat) (env : GlobalEnv)
    (X : List (List Rat)) (nd nt mi : Int) (pp th : Rat)
    (hX : asNumericMatrix (heapAt env i1) = Except.ok X)
    (hnd : asInt (heapAt env i2) = Except.ok nd)
    (hpp : asDouble (heapAt env i3) = Except.ok pp)
    (hth : asDouble (heapAt env i4) = Except.ok th)
    (hnt : asInt (heapAt env i5) = Except.ok nt)
    (hmi : asInt (heapAt env i6) = Except.ok mi) :
    (Rtsne_multicore_Rtsne_cpp native i1 i2 i3 i4 i5 i6 env).2.2 =
        [⟨X, nd, pp, th, nt, mi⟩] ∧
      ∀ r rngOut,
        native ⟨X, nd, pp, th, nt, mi⟩ env.randomSeed =
          (Except.ok r, rngOut) →
        (Rtsne_multicore_Rtsne_cpp native i1 i2 i3 i4 i5 i6 env).1 =
          Except.ok (wrap r) := by
  refine ⟨?_, ?_⟩
  · rcases hc : native ⟨X, nd, pp, th, nt, mi⟩ env.randomSeed with ⟨res, r'⟩
    cases res <;>
      simp [Rtsne_multicore_Rtsne_cpp, hX, hnd, hpp, hth, hnt, hmi, hc]
  · intro r rngOut h
    simp [Rtsne_multicore_Rtsne_cpp, hX, hnd, hpp, hth, hnt, hmi, h]

/-- Witness for C1 at a concrete call with a concrete stub routine. -/
theorem native_called_exactly_once_and_wrapped_witness :
    (Rtsne_multicore_Rtsne_cpp stubOk 0 1 2 3 4 5 demoEnv).2.2 =
        [⟨demoX, 2, 1, 1/2, 4, 1000⟩] ∧
      ∀ r rngOut,
        stubOk ⟨demoX, 2, 1, 1/2, 4, 1000⟩ demoEnv.randomSeed =
          (Except.ok r, rngOut) →
        (Rtsne_multicore_Rtsne_cpp stubOk 0 1 2 3 4 5 demoEnv).1 =
          Except.ok (wrap r) :=
  native_called_exactly_once_and_wrapped stubOk 0 1 2 3 4 5 demoEnv demoX
    2 4 1000 1 (1/2) rfl rfl rfl rfl rfl rfl

/-- Claim C2: every scalar the native routine receives equals the
caller-supplied value after type conversion and nothing else; in particular
a real-typed theta is passed through identically, and int-typed integer
parameters arrive exactly as supplied. -/
theorem scalar_arguments_passed_through_unchanged (native : NativeRoutine)
    (i1 i2 i3 i4 i5 i6 : Nat) (env : GlobalEnv)
    (X : List (List Rat)) (nd nt mi : Int) (pp th : Rat)
    (hX : asNumericMatrix (heapAt env i1) = Except.ok X)
    (hnd : asInt (heapAt env i2) = Except.ok nd)
    (hpp : asDouble (heapAt env i3) = Except.ok pp)
    (hth : asDouble (heapAt env i4) = Except.ok th)
    (hnt : asInt (heapAt env i5) = Except.ok nt)
    (hmi : asInt (heapAt env i6) = Except.ok mi) :
    (Rtsne_multicore_Rtsne_cpp native i1 i2 i3 i4 i5 i6 env).2.2 =
        [⟨X, nd, pp, th, nt, mi⟩] ∧
      (∀ q, heapAt env i4 = SEXP.realScalar q → th = q) ∧
      (∀ q, heapAt env i3 = SEXP.realScalar q → pp = q) ∧
      (∀ k, heapAt env i2 = SEXP.intScalar k → nd = k) ∧
      (∀ k, heapAt env i5 = SEXP.intScalar k → nt = k) ∧
      (∀ k, heapAt env i6 = SEXP.intScalar k → mi = k) := by
  refine ⟨?_, ?_, ?_, ?_, ?_, ?_⟩
  · rcases hc : native ⟨X, nd, pp, th, nt, mi⟩ env.randomSeed with ⟨res, r'⟩
    cases res <;>
      simp [Rtsne_multicore_Rtsne_cpp, hX, hnd, hpp, hth, hnt, hmi, hc]
  · intro q h
    rw [h] at hth
    simp [asDouble] at hth
    exact hth.symm
  · intro q h
    rw [h] at hpp
    simp [asDouble] at hpp
    exact hpp.symm
  · intro k h
    rw [h] at hnd
    simp [asInt] at hnd
    exact hnd.symm
  · intro k h
    rw [h] at hnt
    simp [asInt] at hnt
    exact hnt.symm
  · intro k h
    rw [h] at hmi
    simp [asInt] at hmi
    exact hmi.symm

/-- Witness for C2 at a concrete call with a concrete stub routine. -/
theorem scalar_arguments_passed_through_unchanged_witness :
    (Rtsne_multicore_Rtsne_cpp stubPure 0 1 2 3 4 5 demoEnv).2.2 =
        [⟨demoX, 2, 1, 1/2, 4, 1000⟩] ∧
      (∀ q, heapAt demoEnv 3 = SEXP.realScalar q → (1/2 : Rat) = q) ∧
      (∀ q, heapAt demoEnv 2 = SEXP.realScalar q → (1 : Rat) = q) ∧
      (∀ k, heapAt demoEnv 1 = SEXP.intScalar k → (2 : Int) = k) ∧
      (∀ k, heapAt demoEnv 4 = SEXP.intScalar k → (4 : Int) = k) ∧
      (∀ k, heapAt demoEnv 5 = SEXP.intScalar k → (1000 : Int) = k) :=
  scalar_arguments_passed_through_unchanged stubPure 0 1 2 3 4 5 demoEnv
    demoX 2 4 1000 1 (1/2) rfl rfl rfl rfl rfl rfl

/-- Claim C8: the binding constructs an RNGScope around the native call: the
host RNG state is fetched from the global environment before the call, handed
to the native routine, and the routine's final RNG state is written back
afterwards — so a call can change the caller-visible global RNG state even
though the binding takes no RNG argument. -/
theorem rng_scope_synchronizes_global_rng (native : NativeRoutine)
    (i1 i2 i3 i4 i5 i6 : Nat) (env : GlobalEnv)
    (X : List (List Rat)) (nd nt mi : Int) (pp th : Rat)
    (hX : asNumericMatrix (heapAt env i1) = Except.ok X)
    (hnd : asInt (heapAt env i2) = Except.ok nd)
    (hpp : asDouble (heapAt env i3) = Except.ok pp)
    (hth : asDouble (heapAt env i4) = Except.ok th)
    (hnt : asInt (heapAt env i5) = Except.ok nt)
    (hmi : asInt (heapAt env i6) = Except.ok mi) :
    ((Rtsne_multicore_Rtsne_cpp native i1 i2 i3 i4 i5 i6 env).2.1).randomSeed
      = (native ⟨X, nd, pp, th, nt, mi⟩ env.randomSeed).2 := by
  rcases hc : native ⟨X, nd, pp, th, nt, mi⟩ env.randomSeed with ⟨res, r'⟩
  cases res <;>
    simp [Rtsne_multicore_Rtsne_cpp, hX, hnd, hpp, hth, hnt, hmi, hc]

/-- Witness for C8: with a stub routine that consumes one random draw, a
concrete call changes the caller-visible global RNG state. -/
theorem rng_scope_synchronizes_global_rng_witness :
    ((Rtsne_multicore_Rtsne_cpp stubOk 0 1 2 3 4 5 demoEnv).2.1).randomSeed
        = (stubOk ⟨demoX, 2, 1, 1/2, 4, 1000⟩ demoEnv.randomSeed).2 ∧
      ((Rtsne_multicore_Rtsne_cpp stubOk 0 1 2 3 4 5 demoEnv).2.1).randomSeed
        ≠ demoEnv.randomSeed :=
  ⟨rng_scope_synchronizes_global_rng stubOk 0 1 2 3 4 5 demoEnv demoX
      2 4 1000 1 (1/2) rfl rfl rfl rfl rfl rfl,
    by decide⟩

/-- A concrete environment whose three integer-typed argument slots hold real
scalars instead of integer scalars. -/
def demoEnvReal : GlobalEnv :=
  { randomSeed := 5,
    heap := [SEXP.realMatrix demoX, SEXP.realScalar (27/10),
      SEXP.realScalar 30, SEXP.realScalar 0, SEXP.realScalar (-7/2),
      SEXP.realScalar (1999/2)] }

/-- Claim C10: an integer parameter supplied as a real number is coerced to a
native int by the host conversion (truncation toward zero) rather than
rejected: the conversion succeeds and the native routine is invoked on the
truncated values. -/
theorem real_supplied_ints_coerced_not_rejected (native : NativeRoutine)
    (i1 i2 i3 i4 i5 i6 : Nat) (env : GlobalEnv)
    (X : List (List Rat)) (pp th q2 q5 q6 : Rat)
    (hX : asNumericMatrix (heapAt env i1) = Except.ok X)
    (h2 : heapAt env i2 = SEXP.realScalar q2)
    (hpp : asDouble (heapAt env i3) = Except.ok pp)
    (hth : asDouble (heapAt env i4) = Except.ok th)
    (h5 : heapAt env i5 = SEXP.realScalar q5)
    (h6 : heapAt env i6 = SEXP.realScalar q6) :
    asInt (heapAt env i2) = Except.ok (truncToInt q2) ∧
      (Rtsne_multicore_Rtsne_cpp native i1 i2 i3 i4 i5 i6 env).2.2 =
        [⟨X, truncToInt q2, pp, th, truncToInt q5, truncToInt q6⟩] := by
  have h2' : asInt (heapAt env i2) = Except.ok (truncToInt q2) := by
    rw [h2]; simp [asInt]
  have h5' : asInt (heapAt env i5) = Except.ok (truncToInt q5) := by
    rw [h5]; simp [asInt]
  have h6' : asInt (heapAt env i6) = Except.ok (truncToInt q6) := by
    rw [h6]; simp [asInt]
  refine ⟨h2', ?_⟩
  rcases hc : native ⟨X, truncToInt q2, pp, th, truncToInt q5, truncToInt q6⟩
      env.randomSeed with ⟨res, r'⟩
  cases res <;>
    simp [Rtsne_multicore_Rtsne_cpp, hX, h2', hpp, hth, h5', h6', hc]

/-- Witness for C10: 2.7 truncates to 2, −3.5 to −3 and 999.5 to 999, and
the native routine is invoked on those values. -/
theorem real_supplied_ints_coerced_not_rejected_witness :
    (asInt (heapAt demoEnvReal 1) = Except.ok (truncToInt (27/10)) ∧
        (Rtsne_multicore_Rtsne_cpp stubPure 0 1 2 3 4 5 demoEnvReal).2.2 =
          [⟨demoX, truncToInt (27/10), 30, 0, truncToInt (-7/2),
            truncToInt (1999/2)⟩]) ∧
      truncToInt (27/10) = 2 ∧ truncToInt (-7/2) = -3 ∧
      truncToInt (1999/2) = 999 :=
  ⟨real_supplied_ints_coerced_not_rejected stubPure 0 1 2 3 4 5 demoEnvReal
      demoX 30 0 (27/10) (-7/2) (1999/2) rfl rfl rfl rfl rfl rfl,
    by norm_num [truncToInt]; decide, by norm_num [truncToInt]; decide,
    by norm_num [truncToInt]; decide⟩

/-- Claim C3: every failure raised by the native routine is propagated with
its message unchanged; the only failure the binding itself introduces is a
type-conversion failure, and such a failure occurs before the native routine
is invoked (the invocation list is empty). -/
theorem failures_propagated_with_meaning_preserved (native : NativeRoutine)
    (i1 i2 i3 i4 i5 i6 : Nat) (env : GlobalEnv) :
    (∀ m, (Rtsne_multicore_Rtsne_cpp native i1 i2 i3 i4 i5 i6 env).1 =
        Except.error (RcppError.argumentTypeError m) →
      (Rtsne_multicore_Rtsne_cpp native i1 i2 i3 i4 i5 i6 env).2.2 = []) ∧
      (∀ X nd pp th nt mi m rngOut,
        asNumericMatrix (heapAt env i1) = Except.ok X →
        asInt (heapAt env i2) = Except.ok nd →
        asDouble (heapAt env i3) = Except.ok pp →
        asDouble (heapAt env i4) = Except.ok th →
        asInt (heapAt env i5) = Except.ok nt →
        asInt (heapAt env i6) = Except.ok mi →
        native ⟨X, nd, pp, th, nt, mi⟩ env.randomSeed =
          (Except.error m, rngOut) →
        (Rtsne_multicore_Rtsne_cpp native i1 i2 i3 i4 i5 i6 env).1 =
          Except.error (RcppError.nativeError m)) ∧
      (∀ m, (Rtsne_multicore_Rtsne_cpp native i1 i2 i3 i4 i5 i6 env).1 =
          Except.error (RcppError.nativeError m) →
        ∃ c rngOut,
          (Rtsne_multicore_Rtsne_cpp native i1 i2 i3 i4 i5 i6 env).2.2 =
              [c] ∧
            native c env.randomSeed = (Except.error m, rngOut)) := by
  refine ⟨?_, ?_, ?_⟩
  · intro m hm
    rcases wrapperOutcome native i1 i2 i3 i4 i5 i6 env with
      ⟨m0, hres, hcalls, henv⟩ |
      ⟨c, rngOut, hcalls, _, _, _, _, _, _, henv, hinner⟩
    · exact hcalls
    · rcases hinner with ⟨r, hc, hres⟩ | ⟨m1, hc, hres⟩ <;>
        rw [hres] at hm <;> simp at hm
  · intro X nd pp th nt mi m rngOut hX hnd hpp hth hnt hmi hcall
    simp [Rtsne_multicore_Rtsne_cpp, hX, hnd, hpp, hth, hnt, hmi, hcall]
  · intro m hm
    rcases wrapperOutcome native i1 i2 i3 i4 i5 i6 env with
      ⟨m0, hres, hcalls, henv⟩ |
      ⟨c, rngOut, hcalls, _, _, _, _, _, _, henv, hinner⟩
    · rw [hres] at hm
      simp at hm
    · rcases hinner with ⟨r, hc, hres⟩ | ⟨m1, hc, hres⟩
      · rw [hres] at hm
        simp at hm
      · rw [hres] at hm
        simp only [Except.error.injEq, RcppError.nativeError.injEq] at hm
        subst hm
        exact ⟨c, rngOut, hcalls, hc⟩

/-- Witness for C3: with a stub routine that throws, the thrown message is
surfaced to the caller unchanged as a native error. -/
theorem failures_propagated_with_meaning_preserved_witness :
    (Rtsne_multicore_Rtsne_cpp stubThrow 0 1 2 3 4 5 demoEnv).1 =
      Except.error (RcppError.nativeError "thread creation failed") :=
  (failures_propagated_with_meaning_preserved stubThrow 0 1 2 3 4 5
      demoEnv).2.1 demoX 2 1 (1/2) 4 1000 "thread creation failed"
    demoEnv.randomSeed rfl rfl rfl rfl rfl rfl rfl

/-- Claim C4: the input matrix as seen by the caller is unchanged by the
binding: no caller-visible object in the global environment is mutated, for
any native routine and any arguments. -/
theorem caller_matrix_unchanged_by_shim (native : NativeRoutine)
    (i1 i2 i3 i4 i5 i6 : Nat) (env : GlobalEnv) :
    ((Rtsne_multicore_Rtsne_cpp native i1 i2 i3 i4 i5 i6 env).2.1).heap =
        env.heap ∧
      ∀ i, heapAt
          (Rtsne_multicore_Rtsne_cpp native i1 i2 i3 i4 i5 i6 env).2.1 i =
        heapAt env i := by
  have h : ((Rtsne_multicore_Rtsne_cpp native i1 i2 i3 i4 i5 i6
      env).2.1).heap = env.heap := by
    rcases wrapperOutcome native i1 i2 i3 i4 i5 i6 env with
      ⟨m, _, _, henv⟩ | ⟨c, rngOut, _, _, _, _, _, _, _, henv, _⟩ <;>
      rw [henv]
  exact ⟨h, fun i => by simp [heapAt, h]⟩

/-- Claim C5: the binding is stateless: with a native routine that does not
consume randomness, a call leaves the global environment entirely unchanged,
and a second identical call returns exactly the same outcome — no state is
retained across calls at the shim layer. -/
theorem shim_stateless_no_cross_call_state (native : NativeRoutine)
    (hpure : ∀ c rng, (native c rng).2 = rng)
    (i1 i2 i3 i4 i5 i6 : Nat) (env : GlobalEnv) :
    (Rtsne_multicore_Rtsne_cpp native i1 i2 i3 i4 i5 i6 env).2.1 = env ∧
      Rtsne_multicore_Rtsne_cpp native i1 i2 i3 i4 i5 i6
          ((Rtsne_multicore_Rtsne_cpp native i1 i2 i3 i4 i5 i6 env).2.1) =
        Rtsne_multicore_Rtsne_cpp native i1 i2 i3 i4 i5 i6 env := by
  have henv : (Rtsne_multicore_Rtsne_cpp native i1 i2 i3 i4 i5 i6
      env).2.1 = env := by
    rcases wrapperOutcome native i1 i2 i3 i4 i5 i6 env with
      ⟨m, _, _, henv⟩ | ⟨c, rngOut, _, _, _, _, _, _, _, henv, hinner⟩
    · exact henv
    · have hr : rngOut = env.randomSeed := by
        rcases hinner with ⟨r, hc, _⟩ | ⟨m, hc, _⟩ <;>
          { have h := hpure c env.randomSeed
            rw [hc] at h
            exact h }
      rw [henv, hr]
  exact ⟨henv, by rw [henv]⟩

/-- Witness for C5 at a concrete call with a stub routine that preserves the
RNG state. -/
theorem shim_stateless_no_cross_call_state_witness :
    (Rtsne_multicore_Rtsne_cpp stubPure 0 1 2 3 4 5 demoEnv).2.1 = demoEnv ∧
      Rtsne_multicore_Rtsne_cpp stubPure 0 1 2 3 4 5
          ((Rtsne_multicore_Rtsne_cpp stubPure 0 1 2 3 4 5 demoEnv).2.1) =
        Rtsne_multicore_Rtsne_cpp stubPure 0 1 2 3 4 5 demoEnv :=
  shim_stateless_no_cross_call_state stubPure (fun _ _ => rfl) 0 1 2 3 4 5
    demoEnv

/-- Claim C9: the binding always terminates with a definite outcome and no
exception escapes the foreign-call boundary: every call yields either a
wrapped native result, a type-conversion failure re-signaled as a host error
before any native invocation, or a native failure re-signaled as a host
error. -/
theorem no_exception_escapes_foreign_boundary (native : NativeRoutine)
    (i1 i2 i3 i4 i5 i6 : Nat) (env : GlobalEnv) :
    (∃ r, (Rtsne_multicore_Rtsne_cpp native i1 i2 i3 i4 i5 i6 env).1 =
        Except.ok (wrap r)) ∨
      (∃ m, (Rtsne_multicore_Rtsne_cpp native i1 i2 i3 i4 i5 i6 env).1 =
          Except.error (RcppError.argumentTypeError m) ∧
        (Rtsne_multicore_Rtsne_cpp native i1 i2 i3 i4 i5 i6 env).2.2 =
          []) ∨
      (∃ m c rngOut, native c env.randomSeed = (Except.error m, rngOut) ∧
        (Rtsne_multicore_Rtsne_cpp native i1 i2 i3 i4 i5 i6 env).1 =
          Except.error (RcppError.nativeError m)) := by
  rcases wrapperOutcome native i1 i2 i3 i4 i5 i6 env with
    ⟨m, hres, hcalls, _⟩ |
    ⟨c, rngOut, _, _, _, _, _, _, _, _, hinner⟩
  · exact Or.inr (Or.inl ⟨m, hres, hcalls⟩)
  · rcases hinner with ⟨r, _, hres⟩ | ⟨m, hc, hres⟩
    · exact Or.inl ⟨r, hres⟩
    · exact Or.inr (Or.inr ⟨m, c, rngOut, hc, hres⟩)

/-- A concrete environment whose matrix slot holds a zero-row matrix and
whose scalar slots are well-typed. -/
def demoEnvEmpty : GlobalEnv :=
  { randomSeed := 3,
    heap := [SEXP.realMatrix [], SEXP.intScalar 2, SEXP.realScalar 30,
      SEXP.realScalar 0, SEXP.intScalar 1, SEXP.intScalar 10] }

/-- Claim C6, as amended: a call whose supplied matrix has zero rows never
returns a silently-produced result bundle: the outcome is an error (a
type-conversion failure from another argument, or the boundary error of the
native routine).  The claim's other alternative — an "empty" matrix that is
not zero-row, i.e. one with rows but no columns — does not hold: it is
refuted by the counterexample `zero_column_matrix_silently_embedded`
below, because the spec's own shape property forces success there. -/
theorem empty_matrix_never_silently_embedded (i1 i2 i3 i4 i5 i6 : Nat)
    (env : GlobalEnv)
    (hX : heapAt env i1 = SEXP.realMatrix []) :
    ∃ e, (Rtsne_multicore_Rtsne_cpp Rtsne_cpp i1 i2 i3 i4 i5 i6 env).1 =
      Except.error e := by
  rcases wrapperOutcome Rtsne_cpp i1 i2 i3 i4 i5 i6 env with
    ⟨m, hres, _, _⟩ |
    ⟨c, rngOut, _, hX', _, _, _, _, _, _, hinner⟩
  · exact ⟨_, hres⟩
  · have hcX : c.X = ([] : List (List Rat)) := by
      rw [hX] at hX'
      simp only [asNumericMatrix, Except.ok.injEq] at hX'
      exact hX'.symm
    rcases hinner with ⟨r, hc, hres⟩ | ⟨m, hc, hres⟩
    · exfalso
      simp [Rtsne_cpp, hcX] at hc
    · exact ⟨_, hres⟩

/-- Witness for C6 at a concrete zero-row call. -/
theorem empty_matrix_never_silently_embedded_witness :
    ∃ e, (Rtsne_multicore_Rtsne_cpp Rtsne_cpp 0 1 2 3 4 5 demoEnvEmpty).1 =
      Except.error e :=
  empty_matrix_never_silently_embedded 0 1 2 3 4 5 demoEnvEmpty rfl

/-- A concrete environment whose matrix slot holds a three-row, zero-column
matrix — empty (it has no entries) but not zero-row — with well-typed valid
scalar arguments (2 target dimensions, perplexity 1 below rows − 1 = 2,
theta one half, 4 threads, 1000 iterations). -/
def demoEnvNoCols : GlobalEnv :=
  { randomSeed := 3,
    heap := [SEXP.realMatrix [[], [], []], SEXP.intScalar 2,
      SEXP.realScalar 1, SEXP.realScalar (1/2), SEXP.intScalar 4,
      SEXP.intScalar 1000] }

/-- Counterexample for C6 as stated: a supplied matrix that is empty (no
entries) but not zero-row — three rows, zero columns — is not rejected; the
call returns a success bundle, because the spec's shape property (any matrix
with at least 2 rows and perplexity below rows − 1 yields an embedding of
rows × target_dims) places no condition on the column count and therefore
forces success on this input. -/
theorem zero_column_matrix_silently_embedded :
    (Rtsne_multicore_Rtsne_cpp Rtsne_cpp 0 1 2 3 4 5 demoEnvNoCols).1 =
      Except.ok (wrap (SEXP.rList
        [("Y", SEXP.realMatrix
            (List.replicate 3 (List.replicate 2 (0 : Rat)))),
          ("itercosts", SEXP.realScalar 0)])) := by
  norm_num [Rtsne_multicore_Rtsne_cpp, Rtsne_cpp, demoEnvNoCols, heapAt,
    asNumericMatrix, asInt, asDouble, wrap, Int.toNat]

/-- Claim C7: for all valid inputs — a matrix with at least 2 rows,
perplexity below rows − 1, theta in the unit interval, at least one target
dimension, at least one thread and at least one iteration — the call returns
a result bundle whose embedding matrix has exactly as many rows as the input
matrix and exactly `no_dims_in` columns. -/
theorem valid_inputs_embedding_dimensions (i1 i2 i3 i4 i5 i6 : Nat)
    (env : GlobalEnv) (X : List (List Rat)) (nd nt mi : Int) (pp th : Rat)
    (hX : heapAt env i1 = SEXP.realMatrix X)
    (h2 : heapAt env i2 = SEXP.intScalar nd)
    (h3 : heapAt env i3 = SEXP.realScalar pp)
    (h4 : heapAt env i4 = SEXP.realScalar th)
    (h5 : heapAt env i5 = SEXP.intScalar nt)
    (h6 : heapAt env i6 = SEXP.intScalar mi)
    (hrows : 2 ≤ X.length) (hpp : pp < (X.length : Rat) - 1)
    (hth0 : 0 ≤ th) (hth1 : th ≤ 1) (hnd : 1 ≤ nd) (hnt : 1 ≤ nt)
    (hmi : 1 ≤ mi) :
    ∃ emb rest,
      (Rtsne_multicore_Rtsne_cpp Rtsne_cpp i1 i2 i3 i4 i5 i6 env).1 =
          Except.ok (wrap (SEXP.rList
            (("Y", SEXP.realMatrix emb) :: rest))) ∧
        emb.length = X.length ∧ ∀ row ∈ emb, (row.length : Int) = nd := by
  have hn0 : X.length ≠ 0 := by omega
  have hperp : ¬ ((X.length : Rat) - 1 ≤ pp) := not_le.mpr hpp
  refine ⟨List.replicate X.length (List.replicate nd.toNat (0 : Rat)),
    [("itercosts", SEXP.realScalar 0)], ?_, by simp, ?_⟩
  · simp [Rtsne_multicore_Rtsne_cpp, hX, h2, h3, h4, h5, h6, asNumericMatrix,
      asInt, asDouble, Rtsne_cpp, hn0, hperp, wrap]
  · intro row hrow
    rw [List.eq_of_mem_replicate hrow]
    simp [Int.toNat_of_nonneg (by omega : (0 : Int) ≤ nd)]

/-- Witness for C7 at a concrete valid call: 3 observations, 2 target
dimensions, perplexity 1, theta one half, 4 threads, 1000 iterations. -/
theorem valid_inputs_embedding_dimensions_witness :
    ∃ emb rest,
      (Rtsne_multicore_Rtsne_cpp Rtsne_cpp 0 1 2 3 4 5 demoEnv).1 =
          Except.ok (wrap (SEXP.rList
            (("Y", SEXP.realMatrix emb) :: rest))) ∧
        emb.length = demoX.length ∧
        ∀ row ∈ emb, (row.length : Int) = (2 : Int) :=
  valid_inputs_embedding_dimensions 0 1 2 3 4 5 demoEnv demoX 2 4 1000 1
    (1/2) rfl rfl rfl rfl rfl rfl (by simp [demoX])
    (by norm_num [demoX]) (by norm_num) (by norm_num) (by decide)
    (by decide) (by decide)
